import Mathlib

/-!
Verification of the snapshot-assembly pipeline of `sleeper_fetch.py`.

The script fetches fantasy-football league state over HTTP, resolves raw
player identifiers to readable records through a cached player catalog,
and writes one composite JSON snapshot to two files.  We embed the data
builders (`resolve_ids`, `name_matchups`, `fetch_matchups_by_week`,
`fetch_transactions_by_week`, `fetch_drafts_package`,
`collect_used_player_ids`, `get_players_index`, `print_week1_summary`)
and the `main` orchestration as pure Lean functions.  Remote HTTP calls
are modelled as oracles returning `Except String v` (an `.error` models
an exception escaping the `get` helper after its retries are exhausted);
the players-cache file is modelled as an explicit `Option`-valued state
threaded through `get_players_index`; file writes are collected as a
list of path/content pairs.

Modelling conventions:
* Python values that the script only ever treats as "string or int"
  identifiers are modelled by `RawId`; `str(pid)` is `RawId.toPyStr`.
* Python truthiness of optional strings/lists (`x or y`) is modelled by
  the `pyOr*` helpers: `None` and the empty string/list are falsy.
* JSON numbers are modelled as `Int` — no claim depends on fractional
  arithmetic, only on structural data flow.
* Payloads the script never inspects (league object, transactions,
  draft picks, traded picks) are type parameters.
-/

namespace SleeperFetch

/-!
Structural models of the Python string primitives the script uses.
The Lean standard-library counterparts (`String.toInt?`, `String.trim`,
`String.toLower`, `String.all`) are implemented by well-founded recursion
over byte positions and do not reduce inside the kernel, so concrete
witnesses could not be checked with `decide`; these list-based versions
compute the same functions character by character.
-/

/-- The digit run of Python `int(...)`: all characters must be decimal
digits and at least one must be present. -/
def parseDigits (l : List Char) : Option Nat :=
  match l with
  | [] => none
  | _ => l.foldl (fun acc c =>
      match acc with
      | none => none
      | some n => if c.isDigit then some (n * 10 + (c.toNat - 48)) else none)
      (some 0)

/-- Python `s.strip()`: drop leading and trailing whitespace. -/
def pyStrip (s : String) : String :=
  ⟨((s.data.dropWhile Char.isWhitespace).reverse.dropWhile Char.isWhitespace).reverse⟩

/-- Python `s.lower()`. -/
def pyLower (s : String) : String := ⟨s.data.map Char.toLower⟩

/-- Python `int(s)` on a string: optional surrounding whitespace, optional
sign, decimal digits; anything else raises (`none` here). -/
def pyParseInt (s : String) : Option Int :=
  match (pyStrip s).data with
  | '-' :: rest => (parseDigits rest).map (fun n => -(n : Int))
  | '+' :: rest => (parseDigits rest).map (fun n => (n : Int))
  | rest => (parseDigits rest).map (fun n => (n : Int))

/-- Python `a or b` for an optional string `a`: `None` and `""` are falsy. -/
def pyOrStr (a : Option String) (b : String) : String :=
  match a with
  | some s => if s = "" then b else s
  | none => b

/-- Python `a or b` for two optional strings (used for
`pdata.get("full_name") or pdata.get("first_name")`). -/
def pyOrOpt (a b : Option String) : Option String :=
  match a with
  | some s => if s = "" then b else some s
  | none => b

/-- Python `a or b` for optional lists: `None` and `[]` are falsy. -/
def pyOrList {α : Type} (a b : Option (List α)) : Option (List α) :=
  match a with
  | some l => if l.isEmpty then b else some l
  | none => b

/-- Python truthiness of an optional int (`if owner_id:`): `None` and `0` are falsy. -/
def truthyInt (a : Option Int) : Bool :=
  match a with
  | some n => n != 0
  | none => false

/-- A raw identifier as it appears in rosters/matchups: a JSON string or number. -/
inductive RawId : Type
  | str (s : String)
  | num (n : Int)
deriving DecidableEq, Repr

/-- Python `str(pid)` on a raw identifier. -/
def RawId.toPyStr : RawId → String
  | .str s => s
  | .num n => toString n

/-- The team-defense heuristic of `resolve_ids` (and `collect_used_player_ids`):
`isinstance(pid, str) and pid.isalpha() and 2 <= len(pid) <= 3`. -/
def isDefCodeStr (s : String) : Bool :=
  s.data.all Char.isAlpha && decide (2 ≤ s.data.length) && decide (s.data.length ≤ 3)

/-- The same heuristic applied to a raw identifier (numbers never qualify). -/
def isDefCode : RawId → Bool
  | .str s => isDefCodeStr s
  | .num _ => false

/-- One slim catalog entry `{name, pos, team, status}` as stored in
`players-lite.json`; every field is an optional string (`None` possible). -/
structure PlayerRecord : Type where
  name : Option String
  pos : Option String
  team : Option String
  status : Option String
deriving DecidableEq, Repr

/-- The record that models the Python empty dict `{}` used as lookup fallback. -/
def PlayerRecord.empty : PlayerRecord := ⟨none, none, none, none⟩

/-- The players index: a string-keyed mapping of slim records
(Python dict, modelled as an association list with `List.lookup`). -/
def Idx : Type := List (String × PlayerRecord)

instance : DecidableEq Idx := inferInstanceAs (DecidableEq (List (String × PlayerRecord)))

/-- Dict lookup `idx.get(k)` on the players index. -/
def Idx.get (idx : Idx) (k : String) : Option PlayerRecord :=
  List.lookup k idx

/-- One resolved participant dict appended by `resolve_ids`.  `hasStatusKey`
records whether the dict carries a `"status"` key at all: the team-defense
branch builds `{"id", "name", "pos", "team"}` with no status key, while the
player branch always includes `"status"` (possibly `None`). -/
structure Resolved : Type where
  id : String
  name : String
  pos : Option String
  team : Option String
  status : Option String
  hasStatusKey : Bool
deriving DecidableEq, Repr

/-- The body of the `for pid in ids` loop of `resolve_ids`: either the
team-defense branch or the catalog lookup `idx.get(str(pid)) or {}`. -/
def resolveOne (idx : Idx) (pid : RawId) : Resolved :=
  match pid with
  | .str s =>
    if isDefCodeStr s then
      ⟨s, s ++ " D/ST", some "DEF", some s, none, false⟩
    else
      let info := (idx.get s).getD PlayerRecord.empty
      ⟨s, pyOrStr info.name s, info.pos, info.team, info.status, true⟩
  | .num n =>
    let s := toString n
    let info := (idx.get s).getD PlayerRecord.empty
    ⟨s, pyOrStr info.name s, info.pos, info.team, info.status, true⟩

/-- The accumulator loop of `resolve_ids` (`out.append(...)` per element). -/
def resolveLoop (idx : Idx) : List RawId → List Resolved → List Resolved
  | [], out => out
  | pid :: rest, out => resolveLoop idx rest (out ++ [resolveOne idx pid])

/-- Model of `resolve_ids(ids, idx)`: `ids` may be `None` (absent field); `if not ids`
returns the empty output immediately. -/
def resolve_ids (ids : Option (List RawId)) (idx : Idx) : List Resolved :=
  match ids with
  | none => []
  | some l => if l.isEmpty then [] else resolveLoop idx l []

theorem resolveLoop_eq_append (idx : Idx) :
    ∀ (l : List RawId) (out : List Resolved),
      resolveLoop idx l out = out ++ l.map (resolveOne idx)
  | [], out => by simp [resolveLoop]
  | pid :: rest, out => by
    rw [resolveLoop, resolveLoop_eq_append idx rest]
    simp

theorem resolve_ids_some (idx : Idx) (l : List RawId) :
    resolve_ids (some l) idx = l.map (resolveOne idx) := by
  cases l with
  | nil => simp [resolve_ids]
  | cons a t =>
    simp [resolve_ids, resolveLoop_eq_append]

/-- A value of the `players_points` mapping: a JSON number or a string.
(`print_week1_summary` applies `float(...)` to these, which can raise on a
non-numeric string; numbers are modelled as `Int`, see the header note.) -/
inductive PPVal : Type
  | num (n : Int)
  | str (s : String)
deriving DecidableEq, Repr

/-- One raw weekly matchup dict, with the optional fields the script reads.
A `none` field models an absent key; a JSON-null value of a present key is
conflated with an absent key (the script reads every one of these fields
through `.get` with a fallback, so the two are indistinguishable to it,
except for `players_points` whose `.get(..., {})` default is modelled by
`Option.getD []`). -/
structure Matchup : Type where
  matchup_id : Option Int
  roster_id : Option Int
  points : Option Int
  starters : Option (List RawId)
  players : Option (List RawId)
  players_points : Option (List (String × PPVal))
deriving DecidableEq, Repr

/-- One entry of the `name_matchups` output. -/
structure NamedMatchup : Type where
  matchup_id : Option Int
  roster_id : Option Int
  points : Option Int
  starters : List Resolved
  players : List Resolved
  players_points : List (String × PPVal)
deriving DecidableEq, Repr

/-- Model of `name_matchups(matchups, idx)`; `for m in matchups or []` tolerates `None`. -/
def name_matchups (matchups : Option (List Matchup)) (idx : Idx) : List NamedMatchup :=
  (matchups.getD []).map fun m =>
    { matchup_id := m.matchup_id
      roster_id := m.roster_id
      points := some (m.points.getD 0)
      starters := resolve_ids m.starters idx
      players := resolve_ids m.players idx
      players_points := m.players_points.getD [] }

/-- The `week_to` argument of the by-week fetchers, as a Python value:
an int, a string, or `None`. -/
inductive WeekInput : Type
  | int (n : Int)
  | str (s : String)
  | null
deriving DecidableEq, Repr

/-- Model of `try: week_to = int(week_to or 1) except: week_to = 1`.
`0`, `None` and `""` are falsy and default to `1` before conversion;
a string is converted by Python `int(...)` (modelled by `String.toInt?`),
any conversion error defaults to `1`. -/
def coerceWeek : WeekInput → Int
  | .int n => if n = 0 then 1 else n
  | .str s => if s = "" then 1 else (pyParseInt s).getD 1
  | .null => 1

/-- Model of `range(1, max(week_to, 1) + 1)`: the weeks `1 .. max(week_to, 1)`. -/
def weeksUpTo (week_to : Int) : List Nat :=
  (List.range (max week_to 1).toNat).map (· + 1)

/-- The `{"by_week": {...}}` result shape of the by-week fetchers.
A mapping value is the raw JSON of one week's response (`none` = JSON null)
or `some []` substituted on a failed fetch. -/
structure WeeklyFetch (α : Type) : Type where
  by_week : List (String × Option (List α))
deriving DecidableEq, Repr

/-- One iteration of the by-week loop: `by_week[str(w)] = get(url)`, with the
`except` branch substituting `[]` for that week. -/
def fetch_week_entry {α : Type} (fetchw : Nat → Except String (Option (List α)))
    (w : Nat) : String × Option (List α) :=
  match fetchw w with
  | .ok v => (toString w, v)
  | .error _ => (toString w, some [])

/-- The common body of `fetch_matchups_by_week` and
`fetch_transactions_by_week` (the two functions are verbatim duplicates up
to the endpoint URL, which lives inside the `fetchw` oracle). -/
def fetch_by_week {α : Type} (fetchw : Nat → Except String (Option (List α)))
    (week_to : WeekInput) : WeeklyFetch α :=
  ⟨(weeksUpTo (coerceWeek week_to)).map (fetch_week_entry fetchw)⟩

/-- Model of `fetch_matchups_by_week(league_id, week_to)`; the league id only forms the
URL and lives inside the oracle. -/
def fetch_matchups_by_week (fetchw : Nat → Except String (Option (List Matchup)))
    (week_to : WeekInput) : WeeklyFetch Matchup :=
  fetch_by_week fetchw week_to

/-- Model of `fetch_transactions_by_week(league_id, week_to)`; transaction payloads are
never inspected, hence the type parameter. -/
def fetch_transactions_by_week {Tx : Type}
    (fetchw : Nat → Except String (Option (List Tx)))
    (week_to : WeekInput) : WeeklyFetch Tx :=
  fetch_by_week fetchw week_to

/-- One raw roster dict, with the fields the pipeline reads.  The metadata
fields that `main` copies verbatim into `rosters_named` (`owner_name`,
`record`, `streak`, `waiver_position`, `fpts`, `fpts_against`) are pure
reshaping of fields no claim mentions and are not modelled. -/
structure Roster : Type where
  roster_id : Option Int
  owner_id : Option Int
  players : Option (List RawId)
  starters : Option (List RawId)
  reserve : Option (List RawId)
deriving DecidableEq, Repr

/-- The roster part of `collect_used_player_ids`: all non-defense ids of
`players`, `starters`, `reserve`, stringified. -/
def rosterUsedIds (r : Roster) : List String :=
  ((r.players.getD []) ++ (r.starters.getD []) ++ (r.reserve.getD [])).filterMap
    (fun pid => if isDefCode pid then none else some pid.toPyStr)

/-- The matchup part of `collect_used_player_ids`: all non-defense ids of
`players`, `starters`, stringified. -/
def matchupUsedIds (m : Matchup) : List String :=
  ((m.players.getD []) ++ (m.starters.getD [])).filterMap
    (fun pid => if isDefCode pid then none else some pid.toPyStr)

/-- Model of `collect_used_player_ids(rosters, matchups_by_week)`: the Python set is
modelled as a list with duplicates; only membership is ever used, and the
dict comprehension that consumes it deduplicates (`List.dedup`). -/
def collect_used_player_ids (rosters : Option (List Roster))
    (maw : WeeklyFetch Matchup) : List String :=
  ((rosters.getD []).flatMap rosterUsedIds)
    ++ maw.by_week.flatMap (fun e => (e.2.getD []).flatMap matchupUsedIds)

/-- Model of the comprehension building the slim snapshot index from the set of used ids. -/
def slim_players_index (full : Idx) (used : List String) : Idx :=
  used.dedup.map (fun pid => (pid, (full.get pid).getD PlayerRecord.empty))

/-- Model of the current-week selection in `main`. -/
def currentWeekArr (maw : WeeklyFetch Matchup) (week : Int) : List Matchup :=
  match List.lookup (toString week) maw.by_week with
  | some (some l) => l
  | some none => []
  | none => []

/-- One draft dict; only `draft_id` is read (`d.get("draft_id")`). -/
structure Draft : Type where
  draft_id : Option String
deriving DecidableEq, Repr

/-- The remote endpoints used by one invocation of `fetch_drafts_package`:
the drafts list for the league, and the picks / traded-picks endpoints per
draft id.  `Pk` is the (never inspected) pick payload type. -/
structure DraftsOracle (Pk : Type) : Type where
  drafts : Except String (Option (List Draft))
  picks : String → Except String (Option (List Pk))
  traded_picks : String → Except String (Option (List Pk))

/-- The result dict of `fetch_drafts_package`. -/
structure DraftsPkg (Pk : Type) : Type where
  drafts : Option (List Draft)
  picks_by_draft : List (String × Option (List Pk))
  traded_picks_by_draft : List (String × Option (List Pk))

/-- The `for d in drafts or []` loop of `fetch_drafts_package`: skip falsy
draft ids (`if not draft_id: continue`), then fill both dicts, substituting
`[]` for a failed per-draft fetch. -/
def draftsLoopStep {Pk : Type} (o : DraftsOracle Pk)
    (acc : List (String × Option (List Pk)) × List (String × Option (List Pk)))
    (d : Draft) :
    List (String × Option (List Pk)) × List (String × Option (List Pk)) :=
  match d.draft_id with
  | none => acc
  | some did =>
    if did = "" then acc
    else
      let p := match o.picks did with
               | .ok v => v
               | .error _ => some []
      let t := match o.traded_picks did with
               | .ok v => v
               | .error _ => some []
      (acc.1 ++ [(did, p)], acc.2 ++ [(did, t)])

/-- Model of `fetch_drafts_package(league_id)`: the initial drafts-list fetch is not
guarded, so its failure propagates; per-draft failures are absorbed. -/
def fetch_drafts_package {Pk : Type} (o : DraftsOracle Pk) :
    Except String (DraftsPkg Pk) :=
  match o.drafts with
  | .error e => .error e
  | .ok drafts =>
    let acc := (drafts.getD []).foldl (draftsLoopStep o) ([], [])
    .ok ⟨drafts, acc.1, acc.2⟩

/-- One raw entry of the upstream `/players/nfl` catalog, restricted to the
fields `get_players_index` projects out. -/
structure CatalogEntry : Type where
  full_name : Option String
  first_name : Option String
  position : Option String
  team : Option String
  status : Option String
deriving DecidableEq, Repr

/-- The projection of one catalog entry performed inside `get_players_index`
(`"name": pdata.get("full_name") or pdata.get("first_name")`, …). -/
def slimCatalogEntry (p : CatalogEntry) : PlayerRecord :=
  ⟨pyOrOpt p.full_name p.first_name, p.position, p.team, p.status⟩

/-- The outcome of one `get_players_index` call: the returned value (or the
propagated error), the resulting state of the `players-lite.json` file
(`none` = file absent), and whether the upstream catalog was fetched. -/
structure CacheRun : Type where
  result : Except String Idx
  fs : Option Idx
  fetched : Bool

/-- Model of `get_players_index(force_refresh)`.  `fs0` is the cache-file state on
entry; `upstream` is the (single) catalog fetch including its JSON decode.
On the cached path the file is returned unchanged with no fetch; on the
rebuild path a fetch/decode failure propagates before any write happens,
leaving the file state untouched. -/
def get_players_index (force_refresh : Bool)
    (upstream : Except String (List (String × CatalogEntry)))
    (fs0 : Option Idx) : CacheRun :=
  match fs0, force_refresh with
  | some cached, false => ⟨.ok cached, some cached, false⟩
  | _, _ =>
    match upstream with
    | .error e => ⟨.error e, fs0, true⟩
    | .ok catalog =>
      let lite : Idx := catalog.map (fun p => (p.1, slimCatalogEntry p.2))
      ⟨.ok lite, some lite, true⟩

/-- One league user dict, restricted to the fields read by
`print_week1_summary` (`metadata.team_name`, `user_id`).  The
`display_name`/`username` fields feed only the unmodelled `owner_name`
metadata of `rosters_named` (see `Roster`). -/
structure User : Type where
  user_id : Option Int
  metadata_team_name : Option String
deriving DecidableEq, Repr

/-- One entry of `rosters_named`, restricted to its identifier resolution
fields (the copied metadata fields are not modelled, see `Roster`). -/
structure RosterNamed : Type where
  roster_id : Option Int
  owner_id : Option Int
  players : List Resolved
  starters : List Resolved
  reserve : List Resolved
deriving DecidableEq, Repr

/-- The snapshot dict assembled by `main`, restricted to the fields some
claim reads.  Constant fields (`snapshot_version`, `fetched_at`,
`endpoints`) and the raw `state`/`league` passthroughs are not modelled
(`league` is kept as an opaque payload `Lg`).  `Tx`, `Pk`, `Tp` are the
never-inspected transaction, draft-pick and traded-pick payload types. -/
structure Snapshot (Lg Tx Pk Tp : Type) : Type where
  season : String
  week : Int
  league : Lg
  users : List User
  rosters : Option (List Roster)
  rosters_named : List RosterNamed
  matchups_all_weeks : WeeklyFetch Matchup
  matchups_named_current : List NamedMatchup
  transactions_all_weeks : WeeklyFetch Tx
  league_traded_picks : Option (List Tp)
  drafts_pkg : DraftsPkg Pk
  players_index : Idx
  matchups_all_weeks_named : Option (List (String × List NamedMatchup))

/-- The pure tail of `main` after all fetches have succeeded: slim the
players index to the ids used by this league
(`SLIM_PLAYERS_INDEX_IN_SNAPSHOT` is `True`), build `rosters_named` and
`matchups_named_current`, and assemble the snapshot dict
(`NAME_ALL_WEEKS` is `False`, so `matchups_all_weeks_named` is absent).
`sndPkg` is the value of the second `fetch_drafts_package` call, made
inside the snapshot literal. -/
def buildSnapshot {Lg Tx Pk Tp : Type} (week : Int) (season : String)
    (league : Lg) (users : List User) (rosters : Option (List Roster))
    (maw : WeeklyFetch Matchup) (taw : WeeklyFetch Tx)
    (ltp : Option (List Tp)) (full : Idx) (sndPkg : DraftsPkg Pk) :
    Snapshot Lg Tx Pk Tp :=
  let used := collect_used_player_ids rosters maw
  let players_index := slim_players_index full used
  let rosters_named := (rosters.getD []).map (fun r =>
    { roster_id := r.roster_id
      owner_id := r.owner_id
      players := resolve_ids r.players players_index
      starters := resolve_ids r.starters players_index
      reserve := resolve_ids r.reserve players_index })
  { season := season
    week := week
    league := league
    users := users
    rosters := rosters
    rosters_named := rosters_named
    matchups_all_weeks := maw
    matchups_named_current := name_matchups (some (currentWeekArr maw week)) players_index
    transactions_all_weeks := taw
    league_traded_picks := ltp
    drafts_pkg := sndPkg
    players_index := players_index
    matchups_all_weeks_named := none }

/-- Python `iter(x)` where `x` may be `None`: iterating `None` raises
`TypeError` (this happens in `print_week1_summary` when
`snapshot.get("rosters", [])` holds a JSON null). -/
def pyIter {α : Type} : Option (List α) → Except String (List α)
  | some l => .ok l
  | none => .error "NoneType object is not iterable"

/-- Python `float(v)` on a `players_points` value: numbers convert, strings
are parsed (modelled by `String.toInt?`; the claims only exercise success
versus failure, not fractional values), anything unparseable raises. -/
def pyFloat : PPVal → Except String Int
  | .num n => .ok n
  | .str s =>
    match pyParseInt s with
    | some n => .ok n
    | none => .error ("could not convert string to float: " ++ s)

/-- An element of the `starters` list as seen by `print_week1_summary`:
a resolved dict (named snapshot section) or a raw id (raw section). -/
inductive SummItem : Type
  | resolved (r : Resolved)
  | raw (pid : RawId)
deriving DecidableEq, Repr

/-- Model of `isinstance(P, dict) and P.get("id") == pid` (a string id only ever
equals a string `pid` in Python). -/
def SummItem.idMatches (pid : RawId) : SummItem → Bool
  | .resolved r =>
    match pid with
    | .str s => r.id == s
    | .num _ => false
  | .raw _ => false

/-- Model of `P.get("name")` when `P` is a dict. -/
def SummItem.nameOf : SummItem → Option String
  | .resolved r => some r.name
  | .raw _ => none

/-- The common shape of one week-1 matchup entry inside
`print_week1_summary` (named and raw entries are duck-typed there). -/
structure SummMatchup : Type where
  roster_id : Option Int
  starters : Option (List SummItem)
  players : Option (List SummItem)
  players_points : List (String × PPVal)
deriving DecidableEq, Repr

/-- How a named matchup looks to `print_week1_summary`. -/
def NamedMatchup.toSumm (m : NamedMatchup) : SummMatchup :=
  ⟨m.roster_id, some (m.starters.map .resolved), some (m.players.map .resolved),
    m.players_points⟩

/-- How a raw matchup looks to `print_week1_summary`. -/
def Matchup.toSumm (m : Matchup) : SummMatchup :=
  ⟨m.roster_id, m.starters.map (·.map .raw), m.players.map (·.map .raw),
    m.players_points.getD []⟩

/-- The insertion step of the model of `rows.sort(key=lambda x: x[1],
reverse=True)`: `x` is inserted into a list of rows that originally came
after it, before the first row with points less than or equal to its own,
giving a stable descending order (`List.mergeSort` does not reduce inside
the kernel, hence an insertion sort). -/
def insertRowDesc (x : String × Int) : List (String × Int) → List (String × Int)
  | [] => [x]
  | y :: ys => if y.2 ≤ x.2 then x :: y :: ys else y :: insertRowDesc x ys

/-- Model of `rows.sort(key=lambda x: x[1], reverse=True)`: stable, descending by
the point value. -/
def sortRowsDesc (l : List (String × Int)) : List (String × Int) :=
  l.foldr insertRowDesc []

/-- The `nm` fallback of the summary row loop: the team-defense synthesis or
`(pidx.get(str(pid), {}) or {}).get("name") or str(pid)`. -/
def fallbackName (pidx : Idx) (pid : RawId) : String :=
  if isDefCode pid then pid.toPyStr ++ " D/ST"
  else pyOrStr ((pidx.get pid.toPyStr).getD PlayerRecord.empty).name pid.toPyStr

/-- The body of `print_week1_summary` (everything inside its `try`).
Returns the printed lines, or the first uncaught Python exception as an
`.error` (iterating a null `rosters` value, an unparseable
`players_points` value).  Column padding and `%.2f` formatting of the
printed lines are not modelled (console formatting is out of scope). -/
def summaryCore {Lg Tx Pk Tp : Type} (snapshot : Snapshot Lg Tx Pk Tp)
    (team_name_exact : String) : Except String (List String) := do
  let owner_id : Option Int :=
    (snapshot.users.find? (fun u =>
      pyLower (pyStrip ((u.metadata_team_name).getD "")) == pyLower team_name_exact)).bind
      (fun u => u.user_id)
  let roster_id : Option Int ←
    if truthyInt owner_id then do
      let rs ← pyIter snapshot.rosters
      pure ((rs.find? (fun r => r.owner_id == owner_id)).bind (fun r => r.roster_id))
    else
      pure none
  let rid : Int := roster_id.getD 10
  let named1 : Option (List NamedMatchup) :=
    match snapshot.matchups_all_weeks_named with
    | some bw => List.lookup "1" bw
    | none => none
  let raw1 : Option (List Matchup) :=
    match List.lookup "1" snapshot.matchups_all_weeks.by_week with
    | some v => v
    | none => none
  let wk1 : Option (List SummMatchup) :=
    match named1 with
    | some l =>
      if l.isEmpty then raw1.map (List.map Matchup.toSumm)
      else some (l.map NamedMatchup.toSumm)
    | none => raw1.map (List.map Matchup.toSumm)
  match wk1 with
  | none => pure ["[SUMMARY] No Week 1 data found"]
  | some wl =>
    if wl.isEmpty then pure ["[SUMMARY] No Week 1 data found"]
    else
      match wl.find? (fun x => x.roster_id == some rid) with
      | none => pure ["[SUMMARY] No Week 1 entry for roster " ++ toString rid]
      | some m =>
        let starters := (pyOrList m.starters (pyOrList m.players (some []))).getD []
        let pidx := snapshot.players_index
        let ids : List RawId := starters.map (fun p =>
          match p with
          | .resolved r => .str r.id
          | .raw pid => pid)
        let pp := m.players_points
        let rows ← ids.mapM (fun pid => do
          let pts ← pyFloat ((List.lookup pid.toPyStr pp).getD (.num 0))
          let nm0 : Option String :=
            (starters.find? (SummItem.idMatches pid)).bind SummItem.nameOf
          let nm : String :=
            match nm0 with
            | some s => if s = "" then fallbackName pidx pid else s
            | none => fallbackName pidx pid
          pure (nm, pts))
        let total : Int := (rows.map Prod.snd).sum
        let sorted := sortRowsDesc rows
        pure (["=== Week 1 — Taylor Park Boys ==="]
          ++ sorted.map (fun r => r.1 ++ " " ++ toString r.2)
          ++ ["------------------------------------",
              "Team total (Week 1): " ++ toString total])

/-- Model of `print_week1_summary(snapshot, team_name_exact)`: the whole body runs
inside `try`, and the `except` branch prints one error line instead. -/
def print_week1_summary {Lg Tx Pk Tp : Type} (snapshot : Snapshot Lg Tx Pk Tp)
    (team_name_exact : String) : List String :=
  match summaryCore snapshot team_name_exact with
  | .ok lines => lines
  | .error e => ["[SUMMARY] Error while printing Week 1 summary: " ++ e]

/-- The `/state/nfl` response fields `main` reads; both are arbitrary JSON
scalars (string, number or null). -/
structure StateObj : Type where
  week : WeekInput
  season : WeekInput
deriving DecidableEq, Repr

/-- Model of `try: week = int(state.get("week") or 1); if week <= 0: week = 1
except: week = 1`. -/
def mainWeek (w : WeekInput) : Int :=
  let n := coerceWeek w
  if n ≤ 0 then 1 else n

/-- Model of `season = str(state.get("season") or "")` (`None`, `0` and `""` are
falsy and give the empty string). -/
def seasonStr : WeekInput → String
  | .int n => if n = 0 then "" else toString n
  | .str s => s
  | .null => ""

/-- All remote endpoints `main` touches, as one oracle.  The two
`fetch_drafts_package` invocations (line 341 and the snapshot literal) may
observe different remote responses, hence two separate drafts oracles. -/
structure MainOracle (Lg Tx Pk Tp : Type) : Type where
  state : Except String StateObj
  league : Except String Lg
  users : Except String (List User)
  rosters : Except String (Option (List Roster))
  matchups : Nat → Except String (Option (List Matchup))
  transactions : Nat → Except String (Option (List Tx))
  drafts1 : DraftsOracle Pk
  drafts2 : DraftsOracle Pk
  league_traded_picks : Except String (Option (List Tp))
  playersCatalog : Except String (List (String × CatalogEntry))

/-- One file write: `json.dump(snapshot, open(path, "w"), ...)`. -/
structure WriteOp : Type where
  path : String
  content : String
deriving DecidableEq, Repr

/-- Value of `OUTDIR = pathlib.Path("data/sleeper") / LEAGUE_SLUG`, where
`LEAGUE_SLUG` is `re.sub(r"[^A-Za-z0-9]+", "-", "The *ick Is In!").strip("-")`. -/
def OUTDIR : String := "data/sleeper/The-ick-Is-In"

/-- Model of the archive path `OUTDIR / f"{season}-wk{week}-{ts}.json"` (`ts` is the UTC timestamp). -/
def archiveFilePath (season : String) (week : Int) (ts : String) : String :=
  OUTDIR ++ "/" ++ season ++ "-wk" ++ toString week ++ "-" ++ ts ++ ".json"

/-- Model of the fixed path `OUTDIR / "latest.json"`. -/
def latestFilePath : String := OUTDIR ++ "/latest.json"

/-- Everything one `main` run produces: the snapshot, the resulting
players-cache file state, the file writes in order, and the console lines
of the summary step. -/
structure MainResult (Lg Tx Pk Tp : Type) : Type where
  snapshot : Snapshot Lg Tx Pk Tp
  fs : Option Idx
  writes : List WriteOp
  console : List String

/-- Model of `main()`.  `fs0` is the players-cache file state on entry, `ts` the
wall-clock timestamp, `dump` the JSON serializer (`json.dump` with
`indent=2`; an external collaborator, deterministic in its argument).
Each unguarded `get` propagates its failure; `league_traded_picks` is the
one top-level fetch with a local `except` substituting `[]`. -/
def main {Lg Tx Pk Tp : Type} (o : MainOracle Lg Tx Pk Tp) (fs0 : Option Idx)
    (ts : String) (dump : Snapshot Lg Tx Pk Tp → String) :
    Except String (MainResult Lg Tx Pk Tp) :=
  match o.state with
  | .error e => .error e
  | .ok st =>
    let week := mainWeek st.week
    let season := seasonStr st.season
    match o.league with
    | .error e => .error e
    | .ok lg =>
      match o.users with
      | .error e => .error e
      | .ok users =>
        match o.rosters with
        | .error e => .error e
        | .ok rosters =>
          let maw := fetch_matchups_by_week o.matchups (.int week)
          let taw := fetch_transactions_by_week o.transactions (.int week)
          match fetch_drafts_package o.drafts1 with
          | .error e => .error e
          | .ok _discardedFirstPkg =>
            let ltp : Option (List Tp) :=
              match o.league_traded_picks with
              | .ok v => v
              | .error _ => some []
            let cr := get_players_index false o.playersCatalog fs0
            match cr.result with
            | .error e => .error e
            | .ok full =>
              match fetch_drafts_package o.drafts2 with
              | .error e => .error e
              | .ok sndPkg =>
                let snapshot :=
                  buildSnapshot week season lg users rosters maw taw ltp full sndPkg
                let writes :=
                  [⟨archiveFilePath season week ts, dump snapshot⟩,
                   ⟨latestFilePath, dump snapshot⟩]
                .ok ⟨snapshot, cr.fs, writes,
                     print_week1_summary snapshot "Taylor Park Boys"⟩

/-! ## Claim theorems -/

theorem pyOrStr_none (b : String) : pyOrStr none b = b := rfl

theorem resolveOne_notDef_notCached (idx : Idx) (pid : RawId)
    (hdef : isDefCode pid = false) (hmiss : idx.get pid.toPyStr = none) :
    resolveOne idx pid = ⟨pid.toPyStr, pid.toPyStr, none, none, none, true⟩ := by
  cases pid with
  | str s =>
    simp only [isDefCode] at hdef
    simp only [RawId.toPyStr] at hmiss
    simp [resolveOne, hdef, hmiss, PlayerRecord.empty, pyOrStr_none, RawId.toPyStr]
  | num n =>
    simp only [RawId.toPyStr] at hmiss
    simp [resolveOne, hmiss, PlayerRecord.empty, pyOrStr_none, RawId.toPyStr]

/-- C5: `resolve` maps each input id independently and in order (output
order matches input order, duplicates preserved, output length equals
input length); empty or absent input yields an empty sequence; a purely
alphabetic id of length 2–3 yields `{id, name "<id> D/ST", pos "DEF",
team = id}` bypassing the reference mapping; any other id absent from the
reference mapping yields name equal to the stringified id with
empty/absent pos, team and status, never an error. -/
theorem C5_resolve_pointwise (idx : Idx) (l : List RawId) (s : String) (pid : RawId)
    (hdef : isDefCodeStr s = true)
    (hnotdef : isDefCode pid = false)
    (hmiss : idx.get pid.toPyStr = none) :
    resolve_ids none idx = [] ∧
    resolve_ids (some []) idx = [] ∧
    resolve_ids (some l) idx = l.map (resolveOne idx) ∧
    (resolve_ids (some l) idx).length = l.length ∧
    resolveOne idx (.str s) = ⟨s, s ++ " D/ST", some "DEF", some s, none, false⟩ ∧
    resolveOne idx pid = ⟨pid.toPyStr, pid.toPyStr, none, none, none, true⟩ := by
  refine ⟨rfl, rfl, resolve_ids_some idx l, ?_, ?_, ?_⟩
  · rw [resolve_ids_some idx l, List.length_map]
  · simp [resolveOne, hdef]
  · exact resolveOne_notDef_notCached idx pid hnotdef hmiss

theorem C5_witness :
    resolve_ids none [] = [] ∧
    resolve_ids (some []) [] = [] ∧
    resolve_ids (some [RawId.str "100", RawId.str "100"]) []
      = [RawId.str "100", RawId.str "100"].map (resolveOne []) ∧
    (resolve_ids (some [RawId.str "100", RawId.str "100"]) []).length
      = [RawId.str "100", RawId.str "100"].length ∧
    resolveOne [] (.str "SF") = ⟨"SF", "SF" ++ " D/ST", some "DEF", some "SF", none, false⟩ ∧
    resolveOne [] (.str "999") = ⟨"999", "999", none, none, none, true⟩ :=
  C5_resolve_pointwise [] [RawId.str "100", RawId.str "100"] "SF" (.str "999")
    (by decide) (by decide) (by decide)

/-- C1 as stated is false: the code computes
`"name": info.get("name") or str(pid)`, so a cached entry whose name is
the empty string does not propagate to the output — the name falls back
to the stringified id.  Cache `{"100": {"name": "", ...}}` resolved at id
`"100"` yields name `"100"`, not `""`. -/
theorem C1_claimed_counterexample :
    ¬ ((resolveOne [("100", ⟨some "", some "RB", some "KC", some "Active"⟩)]
        (.str "100")).name = "") := by
  decide

/-- C1 (amended): for an identifier present as a key in the reference
cache and not classified as a team-defense code, `resolve` returns a
record whose pos, team and status are exactly the cached entry's fields,
with the id stringified; the returned name equals the cached name when
the cached name is non-null and non-empty, and falls back to the
stringified id when the cached name is null or empty. -/
theorem C1_amended_resolve_cached (idx : Idx) (pid : RawId) (rec : PlayerRecord)
    (hdef : isDefCode pid = false)
    (hlook : idx.get pid.toPyStr = some rec) :
    (resolveOne idx pid).id = pid.toPyStr ∧
    (resolveOne idx pid).pos = rec.pos ∧
    (resolveOne idx pid).team = rec.team ∧
    (resolveOne idx pid).status = rec.status ∧
    (∀ t, rec.name = some t → t ≠ "" → (resolveOne idx pid).name = t) ∧
    ((rec.name = none ∨ rec.name = some "") →
      (resolveOne idx pid).name = pid.toPyStr) := by
  have hres : resolveOne idx pid
      = ⟨pid.toPyStr, pyOrStr rec.name pid.toPyStr, rec.pos, rec.team, rec.status, true⟩ := by
    cases pid with
    | str s =>
      simp only [isDefCode] at hdef
      simp only [RawId.toPyStr] at hlook
      simp [resolveOne, hdef, hlook, RawId.toPyStr]
    | num n =>
      simp only [RawId.toPyStr] at hlook
      simp [resolveOne, hlook, RawId.toPyStr]
  rw [hres]
  refine ⟨rfl, rfl, rfl, rfl, ?_, ?_⟩
  · intro t ht hne
    simp [pyOrStr, ht, hne]
  · rintro (h | h) <;> simp [pyOrStr, h]

theorem C1_amended_witness :
    (resolveOne [("100", ⟨some "J. Doe", some "RB", some "KC", some "Active"⟩)]
      (.str "100")).id = (RawId.str "100").toPyStr ∧
    (resolveOne [("100", ⟨some "J. Doe", some "RB", some "KC", some "Active"⟩)]
      (.str "100")).pos = some "RB" ∧
    (resolveOne [("100", ⟨some "J. Doe", some "RB", some "KC", some "Active"⟩)]
      (.str "100")).team = some "KC" ∧
    (resolveOne [("100", ⟨some "J. Doe", some "RB", some "KC", some "Active"⟩)]
      (.str "100")).status = some "Active" ∧
    (∀ t, (some "J. Doe" : Option String) = some t → t ≠ "" →
      (resolveOne [("100", ⟨some "J. Doe", some "RB", some "KC", some "Active"⟩)]
        (.str "100")).name = t) ∧
    (((some "J. Doe" : Option String) = none ∨ (some "J. Doe" : Option String) = some "") →
      (resolveOne [("100", ⟨some "J. Doe", some "RB", some "KC", some "Active"⟩)]
        (.str "100")).name = (RawId.str "100").toPyStr) :=
  C1_amended_resolve_cached
    [("100", ⟨some "J. Doe", some "RB", some "KC", some "Active"⟩)]
    (.str "100") ⟨some "J. Doe", some "RB", some "KC", some "Active"⟩
    (by decide) (by decide)

theorem fetch_week_entry_fst {α : Type} (f : Nat → Except String (Option (List α)))
    (w : Nat) : (fetch_week_entry f w).1 = toString w := by
  unfold fetch_week_entry
  cases f w <;> rfl

theorem fetch_by_week_keys {α : Type} (f : Nat → Except String (Option (List α)))
    (w : WeekInput) :
    (fetch_by_week f w).by_week.map Prod.fst
      = (weeksUpTo (coerceWeek w)).map (fun n => toString n) := by
  show ((weeksUpTo (coerceWeek w)).map (fetch_week_entry f)).map Prod.fst = _
  rw [List.map_map]
  exact List.map_congr_left (fun n _ => fetch_week_entry_fst f n)

/-- C3: `fetch_by_week` returns a mapping keyed by week number as a string,
with exactly the keys "1" through `max(upper_week, 1)`; `upper_week` equal
to 0, negative, or non-numeric behaves as `upper_week = 1`, producing
exactly the key "1". -/
theorem C3_fetch_by_week_week_keys {α : Type}
    (f : Nat → Except String (Option (List α))) (w : WeekInput) (s : String)
    (hs : pyParseInt s = none) :
    (fetch_by_week f w).by_week.map Prod.fst
      = (List.range (max (coerceWeek w) 1).toNat).map (fun i => toString (i + 1)) ∧
    (fetch_by_week f (.int 0)).by_week.map Prod.fst = ["1"] ∧
    (fetch_by_week f (.int (-5))).by_week.map Prod.fst = ["1"] ∧
    (fetch_by_week f (.str s)).by_week.map Prod.fst = ["1"] ∧
    (fetch_by_week f .null).by_week.map Prod.fst = ["1"] := by
  refine ⟨?_, ?_, ?_, ?_, ?_⟩
  · rw [fetch_by_week_keys, weeksUpTo, List.map_map]
    rfl
  · rw [fetch_by_week_keys]; decide
  · rw [fetch_by_week_keys]; decide
  · rw [fetch_by_week_keys]
    by_cases h : s = "" <;> simp [coerceWeek, hs, h] <;> decide
  · rw [fetch_by_week_keys]; decide

/-- An oracle answering every weekly fetch with a JSON null, for the C3
witness. -/
def nullMatchupOracle : Nat → Except String (Option (List Matchup)) := fun _ => .ok none

theorem C3_witness :
    (fetch_by_week nullMatchupOracle (.int 3)).by_week.map Prod.fst
      = (List.range (max (coerceWeek (.int 3)) 1).toNat).map (fun i => toString (i + 1)) ∧
    (fetch_by_week nullMatchupOracle (.int 0)).by_week.map Prod.fst = ["1"] ∧
    (fetch_by_week nullMatchupOracle (.int (-5))).by_week.map Prod.fst = ["1"] ∧
    (fetch_by_week nullMatchupOracle (.str "abc")).by_week.map Prod.fst = ["1"] ∧
    (fetch_by_week nullMatchupOracle .null).by_week.map Prod.fst = ["1"] :=
  C3_fetch_by_week_week_keys nullMatchupOracle (.int 3) "abc" (by decide)

theorem fetch_by_week_int_getElem {α : Type}
    (f : Nat → Except String (Option (List α))) (n : Int) (hn : 1 ≤ n)
    (u : Nat) (hu : u < n.toNat) :
    (fetch_by_week f (.int n)).by_week[u]? = some (fetch_week_entry f (u + 1)) := by
  have hne : n ≠ 0 := by omega
  have hmax : max n 1 = n := max_eq_left hn
  show (((List.range (max (coerceWeek (.int n)) 1).toNat).map (· + 1)).map
    (fetch_week_entry f))[u]? = _
  simp only [coerceWeek, if_neg hne, hmax, List.getElem?_map]
  rw [List.getElem?_range hu]
  rfl

/-- C4: in `fetch_by_week` with upper bound n, if the remote fetch for some
week w (1 ≤ w ≤ n) fails, the result still contains an entry for every
week 1..n, with week w mapped to an empty sequence and all other weeks
mapped to their fetched results — one failing week never drops sibling
weeks or aborts the operation. -/
theorem C4_fetch_by_week_failure_isolation {α : Type}
    (f : Nat → Except String (Option (List α))) (n : Int) (w v : Nat)
    (e : String) (res : Option (List α))
    (hn : 1 ≤ n)
    (hw1 : 1 ≤ w) (hwn : (w : Int) ≤ n) (hfail : f w = .error e)
    (hv1 : 1 ≤ v) (hvn : (v : Int) ≤ n) (_hvw : v ≠ w) (hok : f v = .ok res) :
    (fetch_by_week f (.int n)).by_week.length = n.toNat ∧
    (∀ u : Nat, u < n.toNat →
      ∃ val, (fetch_by_week f (.int n)).by_week[u]? = some (toString (u + 1), val)) ∧
    (fetch_by_week f (.int n)).by_week[w - 1]? = some (toString w, some []) ∧
    (fetch_by_week f (.int n)).by_week[v - 1]? = some (toString v, res) := by
  have hne : n ≠ 0 := by omega
  have hmax : max n 1 = n := max_eq_left hn
  refine ⟨?_, ?_, ?_, ?_⟩
  · show (((List.range (max (coerceWeek (.int n)) 1).toNat).map (· + 1)).map
      (fetch_week_entry f)).length = n.toNat
    simp [coerceWeek, if_neg hne, hmax]
  · intro u hu
    refine ⟨(fetch_week_entry f (u + 1)).2, ?_⟩
    rw [fetch_by_week_int_getElem f n hn u hu]
    rw [← fetch_week_entry_fst f (u + 1)]
  · have hu : w - 1 < n.toNat := by omega
    rw [fetch_by_week_int_getElem f n hn (w - 1) hu]
    have hw : w - 1 + 1 = w := by omega
    rw [hw]
    unfold fetch_week_entry
    rw [hfail]
  · have hu : v - 1 < n.toNat := by omega
    rw [fetch_by_week_int_getElem f n hn (v - 1) hu]
    have hv : v - 1 + 1 = v := by omega
    rw [hv]
    unfold fetch_week_entry
    rw [hok]

/-- A matchup with every optional field absent, for concrete witnesses. -/
def emptyMatchup : Matchup := ⟨none, none, none, none, none, none⟩

/-- A remote oracle whose week-2 fetch raises and whose other weeks return
one matchup, for the C4 witness. -/
def failWk2Oracle : Nat → Except String (Option (List Matchup)) :=
  fun k => if k = 2 then .error "boom" else .ok (some [emptyMatchup])

theorem C4_witness :
    (fetch_by_week failWk2Oracle (.int 3)).by_week.length = (3 : Int).toNat ∧
    (∀ u : Nat, u < (3 : Int).toNat →
      ∃ val, (fetch_by_week failWk2Oracle (.int 3)).by_week[u]? = some (toString (u + 1), val)) ∧
    (fetch_by_week failWk2Oracle (.int 3)).by_week[2 - 1]? = some (toString 2, some []) ∧
    (fetch_by_week failWk2Oracle (.int 3)).by_week[1 - 1]?
      = some (toString 1, some [emptyMatchup]) :=
  C4_fetch_by_week_failure_isolation failWk2Oracle 3 2 1 "boom" (some [emptyMatchup])
    (by decide) (by decide) (by decide) (by rfl) (by decide) (by decide)
    (by decide) (by rfl)

/-- All resolved participants of a snapshot: those of `rosters_named`, of
`matchups_named_current`, and of the optional all-weeks named section. -/
def snapshotResolvedParticipants {Lg Tx Pk Tp : Type} (s : Snapshot Lg Tx Pk Tp) :
    List Resolved :=
  s.rosters_named.flatMap (fun rn => rn.players ++ rn.starters ++ rn.reserve)
    ++ s.matchups_named_current.flatMap (fun m => m.starters ++ m.players)
    ++ (s.matchups_all_weeks_named.getD []).flatMap
        (fun e => e.2.flatMap (fun m => m.starters ++ m.players))

theorem mem_resolve_ids {idx : Idx} {ids : Option (List RawId)} {r : Resolved}
    (hr : r ∈ resolve_ids ids idx) :
    ∃ pid ∈ ids.getD [], r = resolveOne idx pid := by
  cases ids with
  | none => simp [resolve_ids] at hr
  | some l =>
    rw [resolve_ids_some] at hr
    obtain ⟨pid, hpid, heq⟩ := List.mem_map.mp hr
    exact ⟨pid, hpid, heq.symm⟩

theorem resolveOne_id_of_def {idx : Idx} {pid : RawId} (h : isDefCode pid = true) :
    isDefCodeStr (resolveOne idx pid).id = true := by
  cases pid with
  | str s => simp only [isDefCode] at h; simp [resolveOne, h]
  | num n => simp [isDefCode] at h

theorem resolveOne_id_of_not_def {idx : Idx} {pid : RawId} (h : isDefCode pid = false) :
    (resolveOne idx pid).id = pid.toPyStr := by
  cases pid with
  | str s => simp only [isDefCode] at h; simp [resolveOne, h, RawId.toPyStr]
  | num n => simp [resolveOne, RawId.toPyStr]

theorem lookup_map_self_isSome {β : Type} (f : String → β) (l : List String)
    (k : String) (hk : k ∈ l) :
    (List.lookup k (l.map (fun x => (x, f x)))).isSome = true := by
  induction l with
  | nil => cases hk
  | cons a t ih =>
    rw [List.map_cons, List.lookup_cons]
    by_cases h : k = a
    · simp [h]
    · have hk' : k ∈ t := by
        cases List.mem_cons.mp hk with
        | inl h' => exact absurd h' h
        | inr h' => exact h'
      simp [beq_eq_false_iff_ne.mpr h, ih hk']

theorem mem_of_lookup_eq_some {β : Type} {l : List (String × β)} {k : String} {v : β}
    (h : List.lookup k l = some v) : (k, v) ∈ l := by
  induction l with
  | nil => simp [List.lookup] at h
  | cons a t ih =>
    rw [List.lookup_cons] at h
    by_cases hk : k = a.1
    · rw [hk, beq_self_eq_true] at h
      simp only [if_true, Option.some.injEq] at h
      exact List.mem_cons.mpr (Or.inl (Prod.ext hk h.symm))
    · rw [beq_eq_false_iff_ne.mpr hk] at h
      simp only [if_neg] at h
      exact List.mem_cons_of_mem a (ih h)

theorem slim_lookup_isSome {full : Idx} {used : List String} {k : String}
    (hk : k ∈ used) :
    ((slim_players_index full used).get k).isSome = true := by
  unfold slim_players_index Idx.get
  exact lookup_map_self_isSome _ used.dedup k (List.mem_dedup.mpr hk)

theorem mem_collect_of_roster {rosters : Option (List Roster)}
    {maw : WeeklyFetch Matchup} {r0 : Roster} {pid : RawId}
    (hr0 : r0 ∈ rosters.getD [])
    (hpid : pid ∈ r0.players.getD [] ∨ pid ∈ r0.starters.getD [] ∨ pid ∈ r0.reserve.getD [])
    (hdef : isDefCode pid = false) :
    pid.toPyStr ∈ collect_used_player_ids rosters maw := by
  unfold collect_used_player_ids
  apply List.mem_append_left
  apply List.mem_flatMap.mpr
  refine ⟨r0, hr0, ?_⟩
  unfold rosterUsedIds
  apply List.mem_filterMap.mpr
  refine ⟨pid, ?_, by simp [hdef]⟩
  rcases hpid with h | h | h
  · exact List.mem_append_left _ (List.mem_append_left _ h)
  · exact List.mem_append_left _ (List.mem_append_right _ h)
  · exact List.mem_append_right _ h

theorem mem_collect_of_current_week {rosters : Option (List Roster)}
    {maw : WeeklyFetch Matchup} {week : Int} {m0 : Matchup} {pid : RawId}
    (hm : m0 ∈ currentWeekArr maw week)
    (hpid : pid ∈ m0.starters.getD [] ∨ pid ∈ m0.players.getD [])
    (hdef : isDefCode pid = false) :
    pid.toPyStr ∈ collect_used_player_ids rosters maw := by
  unfold collect_used_player_ids
  apply List.mem_append_right
  apply List.mem_flatMap.mpr
  unfold currentWeekArr at hm
  cases hlk : List.lookup (toString week) maw.by_week with
  | none => rw [hlk] at hm; cases hm
  | some v =>
    cases v with
    | none => rw [hlk] at hm; cases hm
    | some l =>
      rw [hlk] at hm
      refine ⟨(toString week, some l), mem_of_lookup_eq_some hlk, ?_⟩
      apply List.mem_flatMap.mpr
      refine ⟨m0, hm, ?_⟩
      unfold matchupUsedIds
      apply List.mem_filterMap.mpr
      refine ⟨pid, ?_, by simp [hdef]⟩
      rcases hpid with h | h
      · exact List.mem_append_right _ h
      · exact List.mem_append_left _ h

/-- C2: after the assembly pipeline resolves rosters and matchups, every
`ResolvedParticipant`'s identifier is either a 2–3 letter purely
alphabetic team-defense code or a key present (possibly mapping to an
empty record) in the reference mapping used for resolution (the snapshot's
slimmed `players_index`). -/
theorem C2_resolved_participant_invariant {Lg Tx Pk Tp : Type}
    (week : Int) (season : String) (league : Lg) (users : List User)
    (rosters : Option (List Roster)) (maw : WeeklyFetch Matchup)
    (taw : WeeklyFetch Tx) (ltp : Option (List Tp)) (full : Idx)
    (sndPkg : DraftsPkg Pk) (r : Resolved)
    (hr : r ∈ snapshotResolvedParticipants
      (buildSnapshot week season league users rosters maw taw ltp full sndPkg)) :
    isDefCodeStr r.id = true ∨
    ((buildSnapshot week season league users rosters maw taw ltp full
        sndPkg).players_index.get r.id).isSome = true := by
  unfold snapshotResolvedParticipants at hr
  have hnamedall : (buildSnapshot week season league users rosters maw taw ltp full
      sndPkg).matchups_all_weeks_named = none := rfl
  rw [hnamedall] at hr
  simp only [Option.getD_none, List.flatMap_nil, List.append_nil] at hr
  rcases List.mem_append.mp hr with hros | hmat
  · -- participant of rosters_named
    obtain ⟨rn, hrn, hrmem⟩ := List.mem_flatMap.mp hros
    have hrosdef : (buildSnapshot week season league users rosters maw taw ltp full
        sndPkg).rosters_named = (rosters.getD []).map (fun r0 =>
      { roster_id := r0.roster_id
        owner_id := r0.owner_id
        players := resolve_ids r0.players
          (buildSnapshot week season league users rosters maw taw ltp full sndPkg).players_index
        starters := resolve_ids r0.starters
          (buildSnapshot week season league users rosters maw taw ltp full sndPkg).players_index
        reserve := resolve_ids r0.reserve
          (buildSnapshot week season league users rosters maw taw ltp full
            sndPkg).players_index }) := rfl
    rw [hrosdef] at hrn
    obtain ⟨r0, hr0, hrneq⟩ := List.mem_map.mp hrn
    rw [← hrneq] at hrmem
    simp only [List.mem_append] at hrmem
    have hfield : ∃ pid, (pid ∈ r0.players.getD [] ∨ pid ∈ r0.starters.getD [] ∨
        pid ∈ r0.reserve.getD []) ∧
        r = resolveOne (buildSnapshot week season league users rosters maw taw ltp full
          sndPkg).players_index pid := by
      rcases hrmem with (h | h) | h
      · obtain ⟨pid, hp, he⟩ := mem_resolve_ids h
        exact ⟨pid, Or.inl hp, he⟩
      · obtain ⟨pid, hp, he⟩ := mem_resolve_ids h
        exact ⟨pid, Or.inr (Or.inl hp), he⟩
      · obtain ⟨pid, hp, he⟩ := mem_resolve_ids h
        exact ⟨pid, Or.inr (Or.inr hp), he⟩
    obtain ⟨pid, hp, he⟩ := hfield
    rw [he]
    cases hdef : isDefCode pid with
    | true => exact Or.inl (resolveOne_id_of_def hdef)
    | false =>
      right
      rw [resolveOne_id_of_not_def hdef]
      exact slim_lookup_isSome (mem_collect_of_roster hr0 hp hdef)
  · -- participant of matchups_named_current
    obtain ⟨nm, hnm, hnmmem⟩ := List.mem_flatMap.mp hmat
    have hcurdef : (buildSnapshot week season league users rosters maw taw ltp full
        sndPkg).matchups_named_current = name_matchups (some (currentWeekArr maw week))
      (buildSnapshot week season league users rosters maw taw ltp full
        sndPkg).players_index := rfl
    rw [hcurdef] at hnm
    unfold name_matchups at hnm
    simp only [Option.getD_some] at hnm
    obtain ⟨m0, hm0, hnmeq⟩ := List.mem_map.mp hnm
    rw [← hnmeq] at hnmmem
    simp only [List.mem_append] at hnmmem
    have hfield : ∃ pid, (pid ∈ m0.starters.getD [] ∨ pid ∈ m0.players.getD []) ∧
        r = resolveOne (buildSnapshot week season league users rosters maw taw ltp full
          sndPkg).players_index pid := by
      rcases hnmmem with h | h
      · obtain ⟨pid, hp, he⟩ := mem_resolve_ids h
        exact ⟨pid, Or.inl hp, he⟩
      · obtain ⟨pid, hp, he⟩ := mem_resolve_ids h
        exact ⟨pid, Or.inr hp, he⟩
    obtain ⟨pid, hp, he⟩ := hfield
    rw [he]
    cases hdef : isDefCode pid with
    | true => exact Or.inl (resolveOne_id_of_def hdef)
    | false =>
      right
      rw [resolveOne_id_of_not_def hdef]
      exact slim_lookup_isSome (mem_collect_of_current_week hm0 hp hdef)

/-- A roster holding one catalog player, for the C2 witness. -/
def c2Roster : Roster := ⟨some 1, some 1, some [.str "100"], none, none⟩

/-- A week-1 matchup starting a team defense, for the C2 witness. -/
def c2Matchup : Matchup := ⟨none, some 1, none, some [.str "SF"], none, none⟩

/-- A one-week matchup mapping, for the C2 witness. -/
def c2Maw : WeeklyFetch Matchup := ⟨[("1", some [c2Matchup])]⟩

/-- A one-player full catalog, for the C2 witness. -/
def c2Full : Idx := [("100", ⟨some "J. Doe", some "RB", some "KC", some "Active"⟩)]

theorem C2_witness :
    isDefCodeStr (Resolved.mk "SF" "SF D/ST" (some "DEF") (some "SF") none false).id = true ∨
    ((buildSnapshot 1 "2025" () [] (some [c2Roster]) c2Maw (⟨[]⟩ : WeeklyFetch Unit)
        (some ([] : List Unit)) c2Full (⟨some [], [], []⟩ : DraftsPkg Unit)).players_index.get
      (Resolved.mk "SF" "SF D/ST" (some "DEF") (some "SF") none false).id).isSome = true :=
  C2_resolved_participant_invariant 1 "2025" () [] (some [c2Roster]) c2Maw
    (⟨[]⟩ : WeeklyFetch Unit) (some ([] : List Unit)) c2Full
    (⟨some [], [], []⟩ : DraftsPkg Unit)
    ⟨"SF", "SF D/ST", some "DEF", some "SF", none, false⟩ (by decide)

/-- C6: running the reference-cache builder twice with `force_refresh`
false, when the cache file exists after the first run and is not deleted,
yields identical mappings from both runs, and the second run performs no
upstream catalog fetch. -/
theorem C6_players_cache_idempotent (fs0 : Option Idx)
    (up1 up2 : Except String (List (String × CatalogEntry))) (m : Idx)
    (h1 : (get_players_index false up1 fs0).result = .ok m) :
    (get_players_index false up1 fs0).fs = some m ∧
    (get_players_index false up2 ((get_players_index false up1 fs0).fs)).result = .ok m ∧
    (get_players_index false up2 ((get_players_index false up1 fs0).fs)).fetched = false := by
  have hfs : (get_players_index false up1 fs0).fs = some m := by
    cases fs0 with
    | some cached =>
      have hres : (get_players_index false up1 (some cached)).result = .ok cached := rfl
      rw [hres] at h1
      injection h1 with h1
      rw [← h1]
      rfl
    | none =>
      cases up1 with
      | error e =>
        have hres : (get_players_index false (.error e) none).result = .error e := rfl
        rw [hres] at h1
        cases h1
      | ok catalog =>
        have hres : (get_players_index false (.ok catalog) none).result
            = .ok (catalog.map (fun p => (p.1, slimCatalogEntry p.2))) := rfl
        rw [hres] at h1
        injection h1 with h1
        rw [← h1]
        rfl
  refine ⟨hfs, ?_, ?_⟩ <;> rw [hfs] <;> rfl

theorem C6_witness :
    (get_players_index false (.ok [("1", ⟨some "A", none, some "QB", some "KC", none⟩)]) none).fs
      = some [("1", ⟨some "A", some "QB", some "KC", none⟩)] ∧
    (get_players_index false (.error "down")
        ((get_players_index false
          (.ok [("1", ⟨some "A", none, some "QB", some "KC", none⟩)]) none).fs)).result
      = .ok [("1", ⟨some "A", some "QB", some "KC", none⟩)] ∧
    (get_players_index false (.error "down")
        ((get_players_index false
          (.ok [("1", ⟨some "A", none, some "QB", some "KC", none⟩)]) none).fs)).fetched
      = false :=
  C6_players_cache_idempotent none
    (.ok [("1", ⟨some "A", none, some "QB", some "KC", none⟩)]) (.error "down")
    [("1", ⟨some "A", some "QB", some "KC", none⟩)] (by rfl)

/-- C7: if the upstream catalog fetch or its decode fails during a
reference-cache rebuild, the error propagates to the caller and no cache
file (not even a partial one) is written; the pre-existing cache state is
unchanged. -/
theorem C7_rebuild_failure_propagates (force : Bool) (fs0 : Option Idx) (e : String)
    (hrebuild : fs0 = none ∨ force = true) :
    (get_players_index force (.error e) fs0).result = .error e ∧
    (get_players_index force (.error e) fs0).fs = fs0 := by
  rcases hrebuild with h | h
  · subst h
    cases force <;> exact ⟨rfl, rfl⟩
  · subst h
    cases fs0 <;> exact ⟨rfl, rfl⟩

theorem C7_witness :
    (get_players_index true (.error "boom")
      (some [("1", ⟨some "A", some "QB", some "KC", none⟩)])).result = .error "boom" ∧
    (get_players_index true (.error "boom")
      (some [("1", ⟨some "A", some "QB", some "KC", none⟩)])).fs
      = some [("1", ⟨some "A", some "QB", some "KC", none⟩)] :=
  C7_rebuild_failure_propagates true (some [("1", ⟨some "A", some "QB", some "KC", none⟩)])
    "boom" (Or.inr rfl)

/-- The value a successful `main` run produces, given the values its
required fetches returned; used to characterise `main`'s success path. -/
def mainResultOf {Lg Tx Pk Tp : Type} (o : MainOracle Lg Tx Pk Tp) (fs0 : Option Idx)
    (ts : String) (dump : Snapshot Lg Tx Pk Tp → String) (st : StateObj) (lg : Lg)
    (users : List User) (rosters : Option (List Roster)) (full : Idx)
    (sndPkg : DraftsPkg Pk) : MainResult Lg Tx Pk Tp :=
  let week := mainWeek st.week
  let season := seasonStr st.season
  let maw := fetch_matchups_by_week o.matchups (.int week)
  let taw := fetch_transactions_by_week o.transactions (.int week)
  let ltp : Option (List Tp) :=
    match o.league_traded_picks with
    | .ok v => v
    | .error _ => some []
  let snapshot := buildSnapshot week season lg users rosters maw taw ltp full sndPkg
  ⟨snapshot, (get_players_index false o.playersCatalog fs0).fs,
    [⟨archiveFilePath season week ts, dump snapshot⟩, ⟨latestFilePath, dump snapshot⟩],
    print_week1_summary snapshot "Taylor Park Boys"⟩

theorem main_ok_spec {Lg Tx Pk Tp : Type} (o : MainOracle Lg Tx Pk Tp)
    (fs0 : Option Idx) (ts : String) (dump : Snapshot Lg Tx Pk Tp → String)
    (res : MainResult Lg Tx Pk Tp) (h : main o fs0 ts dump = .ok res) :
    ∃ st lg users rosters firstPkg full sndPkg,
      o.state = .ok st ∧ o.league = .ok lg ∧ o.users = .ok users ∧
      o.rosters = .ok rosters ∧
      fetch_drafts_package o.drafts1 = .ok firstPkg ∧
      (get_players_index false o.playersCatalog fs0).result = .ok full ∧
      fetch_drafts_package o.drafts2 = .ok sndPkg ∧
      res = mainResultOf o fs0 ts dump st lg users rosters full sndPkg := by
  unfold main at h
  cases hst : o.state with
  | error e => rw [hst] at h; cases h
  | ok st =>
    rw [hst] at h
    cases hlg : o.league with
    | error e => rw [hlg] at h; cases h
    | ok lg =>
      rw [hlg] at h
      cases hus : o.users with
      | error e => rw [hus] at h; cases h
      | ok users =>
        rw [hus] at h
        cases hro : o.rosters with
        | error e => rw [hro] at h; cases h
        | ok rosters =>
          rw [hro] at h
          cases hd1 : fetch_drafts_package o.drafts1 with
          | error e => rw [hd1] at h; cases h
          | ok firstPkg =>
            rw [hd1] at h
            simp only [] at h
            cases hcr : (get_players_index false o.playersCatalog fs0).result with
            | error e => rw [hcr] at h; cases h
            | ok full =>
              rw [hcr] at h
              cases hd2 : fetch_drafts_package o.drafts2 with
              | error e => rw [hd2] at h; cases h
              | ok sndPkg =>
                rw [hd2] at h
                injection h with h
                exact ⟨st, lg, users, rosters, firstPkg, full, sndPkg,
                  rfl, rfl, rfl, rfl, rfl, rfl, rfl, h.symm⟩

/-- C8: for a single run, persistence writes the identical serialized
content to both destinations: the archive path embedding season, week and
a UTC timestamp, and the fixed `latest.json` path. -/
theorem C8_persist_identical_writes {Lg Tx Pk Tp : Type} (o : MainOracle Lg Tx Pk Tp)
    (fs0 : Option Idx) (ts : String) (dump : Snapshot Lg Tx Pk Tp → String)
    (res : MainResult Lg Tx Pk Tp) (h : main o fs0 ts dump = .ok res) :
    res.writes
      = [⟨archiveFilePath res.snapshot.season res.snapshot.week ts, dump res.snapshot⟩,
         ⟨latestFilePath, dump res.snapshot⟩] := by
  obtain ⟨st, lg, users, rosters, firstPkg, full, sndPkg, _, _, _, _, _, _, _, hres⟩ :=
    main_ok_spec o fs0 ts dump res h
  subst hres
  rfl

/-- C9: any error raised while composing the optional console summary is
caught and logged inside the summary printer; for every input snapshot
the summary step never propagates an exception, never aborts the run, and
never modifies the already-written snapshot (the run's console lines are
a pure function of the snapshot, and the writes are exactly those
computed from the snapshot before the summary step). -/
theorem C9_summary_failure_isolated {Lg Tx Pk Tp : Type}
    (snapA snapB : Snapshot Lg Tx Pk Tp) (team e : String) (ls : List String)
    (o : MainOracle Lg Tx Pk Tp) (fs0 : Option Idx) (ts : String)
    (dump : Snapshot Lg Tx Pk Tp → String) (res : MainResult Lg Tx Pk Tp)
    (he : summaryCore snapA team = .error e)
    (hok : summaryCore snapB team = .ok ls)
    (hmain : main o fs0 ts dump = .ok res) :
    print_week1_summary snapA team
      = ["[SUMMARY] Error while printing Week 1 summary: " ++ e] ∧
    print_week1_summary snapB team = ls ∧
    res.console = print_week1_summary res.snapshot "Taylor Park Boys" ∧
    res.writes
      = [⟨archiveFilePath res.snapshot.season res.snapshot.week ts, dump res.snapshot⟩,
         ⟨latestFilePath, dump res.snapshot⟩] := by
  obtain ⟨st, lg, users, rosters, firstPkg, full, sndPkg, _, _, _, _, _, _, _, hres⟩ :=
    main_ok_spec o fs0 ts dump res hmain
  subst hres
  refine ⟨?_, ?_, rfl, rfl⟩
  · unfold print_week1_summary
    rw [he]
  · unfold print_week1_summary
    rw [hok]

theorem fetch_drafts_package_drafts_error {Pk : Type} (o : DraftsOracle Pk) (e : String)
    (h : o.drafts = .error e) : fetch_drafts_package o = .error e := by
  unfold fetch_drafts_package
  rw [h]

/-- C10: the assembly run invokes the draft-package fetch twice; the
snapshot's `drafts_pkg` field holds the result of the second invocation
and the result of the first invocation is discarded, so a failure of the
second drafts-list fetch aborts the run even when the first succeeded. -/
theorem C10_drafts_fetched_twice_second_wins {Lg Tx Pk Tp : Type}
    (o o' : MainOracle Lg Tx Pk Tp) (fs0 fs0' : Option Idx) (ts ts' : String)
    (dump dump' : Snapshot Lg Tx Pk Tp → String) (res : MainResult Lg Tx Pk Tp)
    (p1 p2 q : DraftsPkg Pk) (st' : StateObj) (lg' : Lg) (users' : List User)
    (rosters' : Option (List Roster)) (full' : Idx) (e : String)
    (hmain : main o fs0 ts dump = .ok res)
    (_h1 : fetch_drafts_package o.drafts1 = .ok p1)
    (h2 : fetch_drafts_package o.drafts2 = .ok p2)
    (hst' : o'.state = .ok st') (hlg' : o'.league = .ok lg')
    (hus' : o'.users = .ok users') (hro' : o'.rosters = .ok rosters')
    (h1' : fetch_drafts_package o'.drafts1 = .ok q)
    (hcat' : (get_players_index false o'.playersCatalog fs0').result = .ok full')
    (h2' : o'.drafts2.drafts = .error e) :
    res.snapshot.drafts_pkg = p2 ∧ main o' fs0' ts' dump' = .error e := by
  constructor
  · obtain ⟨st, lg, users, rosters, firstPkg, full, sndPkg, _, _, _, _, _, _, hd2, hres⟩ :=
      main_ok_spec o fs0 ts dump res hmain
    subst hres
    rw [hd2] at h2
    exact Except.ok.inj h2
  · unfold main
    rw [hst', hlg', hus', hro', h1']
    simp only []
    rw [hcat', fetch_drafts_package_drafts_error o'.drafts2 e h2']

instance : Inhabited Idx := ⟨[]⟩

instance {α : Type} : Inhabited (WeeklyFetch α) := ⟨⟨[]⟩⟩

instance {Pk : Type} : Inhabited (DraftsPkg Pk) := ⟨⟨none, [], []⟩⟩

instance {Lg Tx Pk Tp : Type} [Inhabited Lg] : Inhabited (Snapshot Lg Tx Pk Tp) :=
  ⟨⟨"", 0, default, [], none, [], default, [], default, none, default, [], none⟩⟩

instance {Lg Tx Pk Tp : Type} [Inhabited Lg] : Inhabited (MainResult Lg Tx Pk Tp) :=
  ⟨⟨default, none, [], []⟩⟩

/-- A drafts oracle whose every endpoint succeeds with empty payloads. -/
def unitDraftsOracle : DraftsOracle Unit :=
  ⟨.ok (some []), fun _ => .ok (some []), fun _ => .ok (some [])⟩

/-- A fully successful concrete remote oracle, for witnesses. -/
def okOracle : MainOracle Unit Unit Unit Unit :=
  { state := .ok ⟨.int 1, .str "2025"⟩
    league := .ok ()
    users := .ok []
    rosters := .ok (some [])
    matchups := fun _ => .ok (some [])
    transactions := fun _ => .ok (some [])
    drafts1 := unitDraftsOracle
    drafts2 := unitDraftsOracle
    league_traded_picks := .ok (some [])
    playersCatalog := .ok [] }

/-- A drafts oracle whose drafts-list fetch raises. -/
def errDraftsOracle : DraftsOracle Unit :=
  ⟨.error "boom", fun _ => .ok (some []), fun _ => .ok (some [])⟩

/-- Oracle `okOracle` with a failing second drafts-package invocation. -/
def errOracle : MainOracle Unit Unit Unit Unit :=
  { okOracle with drafts2 := errDraftsOracle }

/-- A constant serializer standing in for `json.dump` in witnesses. -/
def dumpConst : Snapshot Unit Unit Unit Unit → String := fun _ => "SNAPSHOT"

/-- The result of the successful witness run of `main`. -/
def okMainRes : MainResult Unit Unit Unit Unit :=
  (main okOracle none "TS" dumpConst).toOption.getD default

theorem C8_witness :
    okMainRes.writes
      = [⟨archiveFilePath okMainRes.snapshot.season okMainRes.snapshot.week "TS",
          dumpConst okMainRes.snapshot⟩,
         ⟨latestFilePath, dumpConst okMainRes.snapshot⟩] :=
  C8_persist_identical_writes okOracle none "TS" dumpConst okMainRes (by rfl)

/-- A snapshot whose summary body raises: the target team is found with a
truthy owner id, and the `rosters` section holds a JSON null, so the
roster loop iterates `None`. -/
def snapFailW : Snapshot Unit Unit Unit Unit :=
  { season := ""
    week := 1
    league := ()
    users := [⟨some 1, some "Taylor Park Boys"⟩]
    rosters := none
    rosters_named := []
    matchups_all_weeks := ⟨[]⟩
    matchups_named_current := []
    transactions_all_weeks := ⟨[]⟩
    league_traded_picks := none
    drafts_pkg := ⟨none, [], []⟩
    players_index := []
    matchups_all_weeks_named := none }

/-- A snapshot whose summary body completes (no week-1 data). -/
def snapOkW : Snapshot Unit Unit Unit Unit :=
  { snapFailW with users := [], rosters := some [] }

theorem C9_witness :
    print_week1_summary snapFailW "Taylor Park Boys"
      = ["[SUMMARY] Error while printing Week 1 summary: "
          ++ "NoneType object is not iterable"] ∧
    print_week1_summary snapOkW "Taylor Park Boys" = ["[SUMMARY] No Week 1 data found"] ∧
    okMainRes.console = print_week1_summary okMainRes.snapshot "Taylor Park Boys" ∧
    okMainRes.writes
      = [⟨archiveFilePath okMainRes.snapshot.season okMainRes.snapshot.week "TS",
          dumpConst okMainRes.snapshot⟩,
         ⟨latestFilePath, dumpConst okMainRes.snapshot⟩] :=
  C9_summary_failure_isolated snapFailW snapOkW "Taylor Park Boys"
    "NoneType object is not iterable" ["[SUMMARY] No Week 1 data found"]
    okOracle none "TS" dumpConst okMainRes (by rfl) (by rfl) (by rfl)

theorem C10_witness :
    okMainRes.snapshot.drafts_pkg = (⟨some [], [], []⟩ : DraftsPkg Unit) ∧
    main errOracle none "TS2" dumpConst = .error "boom" :=
  C10_drafts_fetched_twice_second_wins okOracle errOracle none none "TS" "TS2"
    dumpConst dumpConst okMainRes ⟨some [], [], []⟩ ⟨some [], [], []⟩ ⟨some [], [], []⟩
    ⟨.int 1, .str "2025"⟩ () [] (some []) [] "boom"
    (by rfl) (by rfl) (by rfl) (by rfl) (by rfl) (by rfl) (by rfl) (by rfl) (by rfl) (by rfl)

end SleeperFetch
